import Mathlib

/-!
Verification development for the Dynamic SQL Query Analyzer.

The repository has two Python front-ends sharing (almost) the same core:
`sql_analyzer.py` (terminal) and `sql_gui_analyzer.py` (GUI).  This file is a
shallow embedding of that core:

* SQL text is modelled as `List Char`; Python's regex/scanning heuristics are
  re-implemented character by character.
* The live SQLite connection is modelled by the `DB` structure: a statement
  either fails with an error text or succeeds, taking a rational number of
  seconds; `overhead` is the non-SQL wall-clock cost of a timed window (the
  loop/bookkeeping time that `time.perf_counter()` measures around the
  executed statements).  Durations are `ℚ` (wall-clock seconds).
* Each Lean definition mirrors a specific Python function, with the source
  name kept whenever both files do not clash (GUI duplicates are prefixed
  with `gui_` when their names collide with the terminal versions).
-/

/-! ### Python character-level helpers -/

/-- Python's regex class `\s` (ASCII part): space, tab, newline, carriage
return, vertical tab, form feed.  The analyzed SQL is ASCII text. -/
def pyIsSpace (c : Char) : Bool :=
  c = ' ' || c = '\t' || c = '\n' || c = '\x0d' || c = Char.ofNat 11 || c = Char.ofNat 12

/-- ASCII upper-casing, modelling `str.upper()` / `re.IGNORECASE` on the
ASCII SQL text handled by the analyzer. -/
def asciiUpper (c : Char) : Char :=
  if 'a' ≤ c ∧ c ≤ 'z' then Char.ofNat (c.toNat - 32) else c

/-- Python's regex word class `\w` (ASCII part), used for `\b` boundaries. -/
def isWordChar (c : Char) : Bool :=
  ('a' ≤ c && c ≤ 'z') || ('A' ≤ c && c ≤ 'Z') || ('0' ≤ c && c ≤ '9') || c = '_'

/-- Python `str.strip()`: drop leading and trailing whitespace. -/
def pyStrip (l : List Char) : List Char :=
  ((l.dropWhile pyIsSpace).reverse.dropWhile pyIsSpace).reverse

/-- Python `str.rstrip(';')`: drop every trailing semicolon. -/
def rstripSemi (l : List Char) : List Char :=
  (l.reverse.dropWhile (fun c => c = ';')).reverse

/-! ### Token/Pattern Extractor (`count_joins_and_subqueries`,
`extract_table_names`, `clean_table_token`, `extract_subqueries`) -/

/-- The letters of the keyword `SELECT`. -/
def kwSELECT : List Char := ['S', 'E', 'L', 'E', 'C', 'T']

/-- The letters of the keyword `FROM`. -/
def kwFROM : List Char := ['F', 'R', 'O', 'M']

/-- The letters of the keyword `JOIN`. -/
def kwJOIN : List Char := ['J', 'O', 'I', 'N']

/-- Does this suffix of the query match the regex `\(\s*SELECT` (with
`re.IGNORECASE`)?  I.e. an opening parenthesis, optional whitespace, then
the keyword `SELECT` in any case. -/
def isSubqStart (l : List Char) : Bool :=
  match l with
  | c :: rest => c = '(' && ((rest.dropWhile pyIsSpace).take 6).map asciiUpper = kwSELECT
  | [] => false

/-- The sub-list from the opening parenthesis through the parenthesis that
returns the depth to zero — the body of the `while i < len(sql)` loop of
`extract_subqueries` (depth starts at 0 before the first character and the
fragment is `sql[start:i+1]`).  `none` when the string ends first (a
malformed occurrence yields no fragment). -/
def takeBalanced : List Char → Int → Option (List Char)
  | [], _ => none
  | c :: rest, d =>
    if c = '(' then (takeBalanced rest (d + 1)).map (fun f => c :: f)
    else if c = ')' then
      if d - 1 = 0 then some [c]
      else (takeBalanced rest (d - 1)).map (fun f => c :: f)
    else (takeBalanced rest d).map (fun f => c :: f)

/-- `extract_subqueries` of `sql_analyzer.py`: for every occurrence of
`\(\s*SELECT` (a match span contains no `(` after its first character, so
the non-overlapping `finditer` scan finds exactly every such position),
scan forward with a parenthesis counter and keep the balanced fragment. -/
def extract_subqueries (s : List Char) : List (List Char) :=
  (List.range s.length).filterMap fun p =>
    if isSubqStart (s.drop p) then takeBalanced (s.drop p) 0 else none

/-- Does the regex `\bJOIN\b` match at position `p` of the (already
upper-cased) query text? -/
def joinWordAt (u : List Char) (p : Nat) : Bool :=
  ((u.drop p).take 4 = kwJOIN)
    && (decide (p = 0) || !isWordChar (u.getD (p - 1) ' '))
    && !isWordChar (u.getD (p + 4) ' ')

/-- Number of `\bJOIN\b` matches in the upper-cased text (matches cannot
overlap, so counting match positions equals `len(re.findall(...))`). -/
def countJoinOcc (u : List Char) : Nat :=
  (List.range u.length).countP fun p => joinWordAt u p

/-- `count_joins_and_subqueries` of `sql_analyzer.py`: `\bJOIN\b` occurrences
in `sql.upper()`, and `\(\s*SELECT` occurrences (case-insensitive) in the
original text. -/
def count_joins_and_subqueries (l : List Char) : Nat × Nat :=
  (countJoinOcc (l.map asciiUpper),
   (List.range l.length).countP fun p => isSubqStart (l.drop p))

/-- Characters ending the table token of `sql_analyzer.py`'s regexes
`\bFROM\s+([^\s,;]+)` and `\bJOIN\s+([^\s,;]+)`. -/
def tokenStopCli (c : Char) : Bool := pyIsSpace c || c = ',' || c = ';'

/-- Characters ending the table token of `sql_gui_analyzer.py`'s regexes
`FROM\s+([^\s;]+)` and `JOIN\s+([^\s;]+)` (no comma there). -/
def tokenStopGui (c : Char) : Bool := pyIsSpace c || c = ';'

/-- One attempted match of `keyword\s+(token)` at position `p`:
case-insensitive keyword (preceded by a `\b` boundary when `bound` is set,
as in the terminal script's regexes), at least one whitespace, then a
non-empty token of non-stop characters.  Returns the token and the position
right after the match (where `finditer` resumes). -/
def kwMatchAt (s kw : List Char) (bound : Bool) (stop : Char → Bool) (p : Nat) :
    Option (List Char × Nat) :=
  let suf := s.drop p
  if ((suf.take kw.length).map asciiUpper = kw)
      && (!bound || decide (p = 0) || !isWordChar (s.getD (p - 1) ' ')) then
    let rest := suf.drop kw.length
    let ws := rest.takeWhile pyIsSpace
    if ws.length = 0 then none
    else
      let tok := (rest.drop ws.length).takeWhile fun c => !stop c
      if tok.length = 0 then none
      else some (tok, p + kw.length + ws.length + tok.length)
  else none

/-- `re.finditer` scan for `keyword\s+(token)`: leftmost match, then resume
after the match.  Fuel-based recursion; the position strictly increases each
step, so `s.length + 1` units of fuel reach the end of the string. -/
def findTokensAux (s kw : List Char) (bound : Bool) (stop : Char → Bool) :
    Nat → Nat → List (List Char)
  | 0, _ => []
  | fuel + 1, p =>
    if p < s.length then
      match kwMatchAt s kw bound stop p with
      | some (tok, nxt) => tok :: findTokensAux s kw bound stop fuel nxt
      | none => findTokensAux s kw bound stop fuel (p + 1)
    else []

/-- All tokens captured by `keyword\s+(token)` over the whole text. -/
def findTokens (s kw : List Char) (bound : Bool) (stop : Char → Bool) :
    List (List Char) :=
  findTokensAux s kw bound stop (s.length + 1) 0

/-- Strip the characters `(` and `)` from both ends, as `str.strip('()')`. -/
def stripParenChars (l : List Char) : List Char :=
  let isParen : Char → Bool := fun c => c = '(' || c = ')'
  ((l.dropWhile isParen).reverse.dropWhile isParen).reverse

/-- `clean_table_token` of `sql_analyzer.py`: strip whitespace, drop one
trailing comma, keep the part before the first whitespace (which is where
`re.split(r'\s+AS\s+|\s+', t)` first splits), strip enclosing parentheses. -/
def clean_table_token (t : List Char) : List Char :=
  let t1 := pyStrip t
  let t2 := if t1.getLast? = some ',' then t1.dropLast else t1
  let t3 := t2.takeWhile fun c => !pyIsSpace c
  stripParenChars t3

/-- Keep the first occurrence of each string, dropping later duplicates. -/
def dedupAux : List String → List String → List String
  | [], _ => []
  | x :: xs, seen => if seen.contains x then dedupAux xs seen
                     else x :: dedupAux xs (x :: seen)

/-- Python's `set()` of table tokens turned back into a list.  A CPython
`set`'s iteration order is interpreter/run dependent; the model fixes the
first-occurrence order (every claim below is independent of which
permutation the set iteration yields). -/
def dedupFirst (l : List String) : List String := dedupAux l []

/-- `extract_table_names` of `sql_analyzer.py`: tokens after `FROM` and
`JOIN`, cleaned by `clean_table_token`, deduplicated. -/
def extract_table_names (l : List Char) : List String :=
  dedupFirst
    (((findTokens l kwFROM true tokenStopCli) ++ (findTokens l kwJOIN true tokenStopCli)).map
      fun t => String.mk (clean_table_token t))

/-- `extract_tables` of `sql_gui_analyzer.py`: tokens after `FROM`/`JOIN`
(no `\b`, stop set without comma), *not* cleaned, deduplicated. -/
def extract_tables (l : List Char) : List String :=
  dedupFirst
    (((findTokens l kwFROM false tokenStopGui) ++ (findTokens l kwJOIN false tokenStopGui)).map
      fun t => String.mk t)

/-- `count_joins_and_subqueries` of `sql_gui_analyzer.py`: both patterns are
applied to `sql.upper()` there. -/
def gui_count_joins_and_subqueries (l : List Char) : Nat × Nat :=
  (countJoinOcc (l.map asciiUpper),
   (List.range l.length).countP fun p => isSubqStart ((l.map asciiUpper).drop p))

/-! ### Database model

A live SQLite connection is abstracted to the three facilities the analyzer
uses: executing a statement (with its wall-clock cost), the `EXPLAIN QUERY
PLAN` facility (its rows kept opaque, as strings), and `PRAGMA table_info`
column introspection.  `overhead` is the wall-clock cost a timed window pays
beyond the statements themselves (loop and clock bookkeeping); it is what
keeps a zero-iteration window "near-zero" rather than exactly zero. -/

structure DB where
  exec : String → Except String ℚ
  explainQ : String → Except String (List String)
  tableInfo : String → Except String (List String)
  overhead : ℚ

/-- `max(1, iterations)` as a rational, the divisor used by `time_query`. -/
def iterDivisor (n : Int) : ℚ := ((max 1 n : ℤ) : ℚ)

/-- `time_query` of `sql_analyzer.py`.  The warmup execution discards results
and errors and does not affect the returned value.  The timed window runs the
statement `range(iterations)` times (so `iterations.toNat` times); on failure
it returns a null duration and the error text, otherwise the elapsed window
(overhead plus the statements' cost) divided by `max(1, iterations)`.  The
second component models only the error text: on success Python returns the
fetched rows there, which every caller discards, so they are elided as
`none`. -/
def time_query (db : DB) (sql : String) (warmup : Bool) (iterations : Int) :
    Option ℚ × Option String :=
  if iterations.toNat = 0 then
    (some (db.overhead / iterDivisor iterations), none)
  else
    match db.exec sql with
    | .error e => (none, some e)
    | .ok t =>
      (some ((db.overhead + (iterations.toNat : ℚ) * t) / iterDivisor iterations), none)

/-- `explain_query_plan` of `sql_analyzer.py`: run `EXPLAIN QUERY PLAN <sql>`;
on a database error print a warning and return the empty row list. -/
def explain_query_plan (db : DB) (sql : String) : List String :=
  match db.explainQ ("EXPLAIN QUERY PLAN " ++ sql) with
  | .ok rows => rows
  | .error _ => []

/-- `estimate_table_costs` of `sql_analyzer.py`: per table, time
`SELECT COUNT(*) FROM <table>` (defaults: warmup on, one iteration); a failed
probe maps to a null duration and the remaining tables are still probed. -/
def estimate_table_costs (db : DB) (tables : List String) :
    List (String × Option ℚ) :=
  tables.map fun t => (t, (time_query db ("SELECT COUNT(*) FROM " ++ t) true 1).1)

/-- The shared column names of two tables, from `PRAGMA table_info` on each:
`set(left_cols).intersection(set(right_cols))` of `estimate_join_cost`.  One
`try` wraps both pragmas, so a failure on either leaves both column lists
empty.  The set is modelled as the deduplicated left columns that occur on
the right. -/
def join_common_cols (db : DB) (left right : String) : List String :=
  match db.tableInfo left, db.tableInfo right with
  | .ok lcols, .ok rcols => (dedupFirst lcols).filter fun c => rcols.contains c
  | _, _ => []

/-- The probe statement `estimate_join_cost` builds.  `pick` models
`next(iter(common))`: CPython's set iteration order depends on the string
hashes of the members, so the embedding abstracts the choice into a function
of the intersection (the theorems only assume it returns a member). -/
def estimate_join_cost_sql (db : DB) (pick : List String → String)
    (left right : String) (join_condition : Option String) : String :=
  let common := join_common_cols db left right
  let cond : Option String :=
    match join_condition with
    | some c => some c
    | none =>
      if common = [] then none
      else
        let c := pick common
        some (left ++ "." ++ c ++ " = " ++ right ++ "." ++ c)
  match cond with
  | some c => "SELECT COUNT(*) FROM " ++ left ++ " JOIN " ++ right ++ " ON " ++ c
  | none => "SELECT COUNT(*) FROM " ++ left ++ ", " ++ right ++ " LIMIT 1000"

/-- `estimate_join_cost` of `sql_analyzer.py`: time the built probe with the
Probe Runner's defaults. -/
def estimate_join_cost (db : DB) (pick : List String → String)
    (left right : String) (join_condition : Option String) : Option ℚ :=
  (time_query db (estimate_join_cost_sql db pick left right join_condition) true 1).1

/-! ### GUI probe helpers (`sql_gui_analyzer.py`) -/

/-- A row as the GUI's `explain_query` returns it: either a database plan row
or the synthetic `("EXPLAIN FAILED", str(e))` tuple it builds on failure. -/
inductive GRow where
  | planRow : String → GRow
  | failed : String → GRow
deriving DecidableEq, Repr

/-- `explain_query` of `sql_gui_analyzer.py`: on failure it does NOT return
an empty list but a single `("EXPLAIN FAILED", error)` row. -/
def explain_query (db : DB) (sql : String) : List GRow :=
  match db.explainQ ("EXPLAIN QUERY PLAN " ++ sql) with
  | .ok rows => rows.map GRow.planRow
  | .error e => [GRow.failed e]

/-- `time_query` of `sql_gui_analyzer.py`: single execution, no warmup, no
iteration count; wall time on success, `(None, error)` on failure. -/
def gui_time_query (db : DB) (sql : String) : Option ℚ × Option String :=
  match db.exec sql with
  | .ok t => (some (db.overhead + t), none)
  | .error e => (none, some e)

/-- `table_scan_time` of `sql_gui_analyzer.py`: `SELECT COUNT(*)` wall time,
`0` on any exception (not `None`, unlike the terminal script). -/
def table_scan_time (db : DB) (t : String) : ℚ :=
  match db.exec ("SELECT COUNT(*) FROM " ++ t) with
  | .ok d => db.overhead + d
  | .error _ => 0

/-- The probe statement of the GUI's `join_cost`: always the bounded cross
product, `LIMIT 2000`, regardless of shared columns. -/
def join_cost_sql (t1 t2 : String) : String :=
  "SELECT COUNT(*) FROM " ++ t1 ++ ", " ++ t2 ++ " LIMIT 2000"

/-- `join_cost` of `sql_gui_analyzer.py`: time the cross probe, `0` on any
exception. -/
def join_cost (db : DB) (t1 t2 : String) : ℚ :=
  match db.exec (join_cost_sql t1 t2) with
  | .ok d => db.overhead + d
  | .error _ => 0

/-! ### Timeline steps, report, and the stable descending sort -/

/-- The `Step` namedtuple of `sql_analyzer.py` (as the `_asdict()` records
put into the timeline). -/
structure Step where
  name : String
  type : String
  duration_s : Option ℚ
  detail : String
deriving DecidableEq, Repr

/-- The sort key of `analyze_query`:
`s['duration_s'] if s['duration_s'] is not None else 0.0`. -/
def stepKey (s : Step) : ℚ := s.duration_s.getD 0

/-- The bottleneck filter `step['duration_s'] and step['duration_s'] > 0`:
a null or zero duration is falsy and excluded; otherwise require `> 0`. -/
def bottleneckPred (s : Step) : Bool :=
  match s.duration_s with
  | none => false
  | some d => if d = 0 then false else decide (0 < d)

/-- Insert into an already descending list, after any equal keys — the
placement Python's stable `sorted(key=..., reverse=True)` gives an element
relative to the ones inserted before it. -/
def insertDescBy {α : Type} (key : α → ℚ) (x : α) : List α → List α
  | [] => [x]
  | y :: ys => if key x < key y then y :: insertDescBy key x ys else x :: y :: ys

/-- Stable sort by key, descending — the behaviour of Python's
`sorted(timeline, key=..., reverse=True)` (Timsort is stable and `reverse`
preserves stability; a stable sort is uniquely determined by the key order,
so this insertion sort computes the same list). -/
def sortDescBy {α : Type} (key : α → ℚ) : List α → List α
  | [] => []
  | x :: xs => insertDescBy key x (sortDescBy key xs)

/-- The report dict assembled by `analyze_query` of `sql_analyzer.py`.
Python dicts preserve insertion order, so the three cost maps are modelled
as association lists in that order. -/
structure Report where
  join_count : Nat
  subquery_count : Nat
  tables : List String
  explain : List String
  full_query_duration_s : Option ℚ
  timeline : List Step
  bottlenecks : List Step
  table_costs : List (String × Option ℚ)
  join_costs : List (String × Option ℚ)
  subquery_costs : List (String × Option ℚ)
deriving DecidableEq, Repr

/-! ### `analyze_query` of `sql_analyzer.py`, decomposed

Each helper names one intermediate value of the Python function body, in
the order the function computes them. -/

/-- `sql.strip().rstrip(';')` — the query text the analysis works on. -/
def analyzedSql (sqlRaw : String) : List Char :=
  rstripSemi (pyStrip sqlRaw.toList)

/-- The analyzed query as a string (what is passed to the connection). -/
def analyzedSqlStr (sqlRaw : String) : String :=
  String.mk (analyzedSql sqlRaw)

/-- `tables = extract_table_names(sql)`. -/
def tablesOf (sqlRaw : String) : List String :=
  extract_table_names (analyzedSql sqlRaw)

/-- `report['explain'] = explain_query_plan(conn, sql)`. -/
def explainRowsOf (db : DB) (sqlRaw : String) : List String :=
  explain_query_plan db (analyzedSqlStr sqlRaw)

/-- `full_dur, _ = time_query(conn, sql, warmup=True, iterations=1)`. -/
def fullDurOf (db : DB) (sqlRaw : String) : Option ℚ :=
  (time_query db (analyzedSqlStr sqlRaw) true 1).1

/-- The `explain_step` annotation steps (duration `0.0`). -/
def explainStepsOf (db : DB) (sqlRaw : String) : List Step :=
  (explainRowsOf db sqlRaw).map fun r => ⟨r, "explain_step", some 0, r⟩

/-- `table_costs = estimate_table_costs(conn, tables)` (an insertion-ordered
dict keyed by the deduplicated table names). -/
def tableCostsOf (db : DB) (sqlRaw : String) : List (String × Option ℚ) :=
  estimate_table_costs db (tablesOf sqlRaw)

/-- One `table_scan` step per table; a null cost is coerced by `d or 0.0`. -/
def scanStepsOf (db : DB) (sqlRaw : String) : List Step :=
  (tableCostsOf db sqlRaw).map fun td =>
    ⟨"Table scan: " ++ td.1, "table_scan", some (td.2.getD 0), "COUNT(*) estimate"⟩

/-- The unordered pairs `(tables[i], tables[j])` for `i < j`, in the order
the two nested `for` loops generate them. -/
def pairsOf {α : Type} : List α → List (α × α)
  | [] => []
  | x :: xs => (xs.map fun y => (x, y)) ++ pairsOf xs

/-- The connector of the join step name.  The terminal source file stores the
join symbol double-encoded, as the two characters `U+00E2 U+00A8`. -/
def joinGlyph : String := " â¨ "

/-- Each join pair with its estimated cost, in pair order. -/
def joinResultsOf (db : DB) (pick : List String → String) (sqlRaw : String) :
    List (String × String × Option ℚ) :=
  (pairsOf (tablesOf sqlRaw)).map fun p =>
    (p.1, p.2, estimate_join_cost db pick p.1 p.2 none)

/-- `join_costs[f"{left}<> {right}"] = dur` in pair order. -/
def joinCostsOf (db : DB) (pick : List String → String) (sqlRaw : String) :
    List (String × Option ℚ) :=
  (joinResultsOf db pick sqlRaw).map fun x => (x.1 ++ "<> " ++ x.2.1, x.2.2)

/-- One `join` step per pair; a null cost is coerced by `dur or 0.0`. -/
def joinStepsOf (db : DB) (pick : List String → String) (sqlRaw : String) :
    List Step :=
  (joinResultsOf db pick sqlRaw).map fun x =>
    ⟨"Join " ++ x.1 ++ joinGlyph ++ x.2.1, "join", some (x.2.2.getD 0),
      "pairwise join COUNT(*)"⟩

/-- `subqueries = extract_subqueries(sql)`. -/
def subqueriesOf (sqlRaw : String) : List (List Char) :=
  extract_subqueries (analyzedSql sqlRaw)

/-- The parenthesis stripping applied to a fragment before timing it:
`ssql = sub.strip()`, then drop the first and last character when they are
`(` and `)` (Python indexes `ssql[0]` and `ssql[-1]`, so this step relies on
the fragment being non-empty). -/
def stripOuterParens (sub : List Char) : List Char :=
  let ssql := pyStrip sub
  if ssql.head? = some '(' && ssql.getLast? = some ')' then
    (ssql.drop 1).dropLast
  else ssql

/-- Each fragment with its 1-based index, stripped text and cost, in
discovery order (`enumerate(subqueries, start=1)`). -/
def subResultsOf (db : DB) (sqlRaw : String) : List (Nat × List Char × Option ℚ) :=
  (subqueriesOf sqlRaw).enum.map fun ix =>
    let ssql := stripOuterParens ix.2
    (ix.1 + 1, ssql, (time_query db (String.mk ssql) true 1).1)

/-- `subq_costs[f"subquery_{idx}"] = dur` in discovery order. -/
def subCostsOf (db : DB) (sqlRaw : String) : List (String × Option ℚ) :=
  (subResultsOf db sqlRaw).map fun x => ("subquery_" ++ toString x.1, x.2.2)

/-- One `subquery` step per fragment; a null cost is coerced by `dur or 0.0`;
the detail is the stripped fragment truncated to 200 characters. -/
def subStepsOf (db : DB) (sqlRaw : String) : List Step :=
  (subResultsOf db sqlRaw).map fun x =>
    ⟨"Subquery " ++ toString x.1, "subquery", some (x.2.2.getD 0),
      String.mk (x.2.1.take 200)⟩

/-- The single full-query step appended last; a null duration is coerced by
`full_dur or 0.0`; the detail is the query truncated to 400 characters. -/
def fullStepOf (db : DB) (sqlRaw : String) : Step :=
  ⟨"Full query execution", "query", some ((fullDurOf db sqlRaw).getD 0),
    String.mk ((analyzedSql sqlRaw).take 400)⟩

/-- The timeline in insertion order, before sorting: explain annotations,
table scans, pairwise joins, subqueries, then the full-query step. -/
def timelinePre (db : DB) (pick : List String → String) (sqlRaw : String) :
    List Step :=
  explainStepsOf db sqlRaw ++ scanStepsOf db sqlRaw ++ joinStepsOf db pick sqlRaw ++
    subStepsOf db sqlRaw ++ [fullStepOf db sqlRaw]

/-- `timeline_sorted = sorted(timeline, key=..., reverse=True)`. -/
def timelineSorted (db : DB) (pick : List String → String) (sqlRaw : String) :
    List Step :=
  sortDescBy stepKey (timelinePre db pick sqlRaw)

/-- `bottlenecks`: the positive-duration entries among `timeline_sorted[:5]`. -/
def bottlenecksOf (db : DB) (pick : List String → String) (sqlRaw : String) :
    List Step :=
  ((timelineSorted db pick sqlRaw).take 5).filter bottleneckPred

/-- `analyze_query` of `sql_analyzer.py`, assembling the report dict. -/
def analyze_query (db : DB) (pick : List String → String) (sqlRaw : String) :
    Report :=
  { join_count := (count_joins_and_subqueries (analyzedSql sqlRaw)).1
    subquery_count := (count_joins_and_subqueries (analyzedSql sqlRaw)).2
    tables := tablesOf sqlRaw
    explain := explainRowsOf db sqlRaw
    full_query_duration_s := fullDurOf db sqlRaw
    timeline := timelineSorted db pick sqlRaw
    bottlenecks := bottlenecksOf db pick sqlRaw
    table_costs := tableCostsOf db sqlRaw
    join_costs := joinCostsOf db pick sqlRaw
    subquery_costs := subCostsOf db sqlRaw }

/-! ### `analyze_sql` of `sql_gui_analyzer.py` (its analysis core: the
widget reads and the report files are peripheral I/O) -/

/-- A GUI timeline dict `{"name": ..., "type": ..., "duration": ...}`; the
GUI never stores a null duration (a failed full query aborts instead, and
failed probes come back as `0`). -/
structure GStep where
  name : String
  type : String
  duration : ℚ
deriving DecidableEq, Repr

/-- What the GUI's `analyze_sql` hands to the report renderers. -/
structure GuiReport where
  join_count : Nat
  subquery_count : Nat
  tables : List String
  execution_time : ℚ
  timeline : List GStep
  bottlenecks : List GStep
  explain : List GRow
deriving DecidableEq, Repr

/-- `analyze_sql` of `sql_gui_analyzer.py`: `.error` models the `messagebox`
error paths that return without producing a report (empty input, and a full
query that fails to execute); `.ok` carries the report content. -/
def analyze_sql (db : DB) (sqlRaw : String) : Except String GuiReport :=
  let sql := pyStrip sqlRaw.toList
  if sql = [] then .error "Please enter SQL query."
  else
    let sqlS := String.mk sql
    let counts := gui_count_joins_and_subqueries sql
    let tables := extract_tables sql
    let explain_rows := explain_query db sqlS
    let tq := gui_time_query db sqlS
    match tq.2 with
    | some e => .error e
    | none =>
      let exec_time := tq.1.getD 0
      let scanSteps := tables.map fun t =>
        GStep.mk ("Table scan: " ++ t) "table_scan" (table_scan_time db t)
      let joinSteps := (pairsOf tables).map fun p =>
        GStep.mk ("Join " ++ p.1 ++ " ⨝ " ++ p.2) "join" (join_cost db p.1 p.2)
      let timeline := scanSteps ++ joinSteps ++
        [GStep.mk "Full query execution" "query" exec_time]
      let timeline_sorted := sortDescBy (fun s => s.duration) timeline
      .ok
        { join_count := counts.1
          subquery_count := counts.2
          tables := tables
          execution_time := exec_time
          timeline := timeline_sorted
          bottlenecks := timeline_sorted.take 5
          explain := explain_rows }

/-! ### Concrete database models used as witnesses and counterexamples -/

/-- A deterministic choice function standing in for `next(iter(...))` on a
set: take the first member of the modelled intersection. -/
def pickHead (l : List String) : String := l.headD ""

/-- A database where the query itself runs (in 1s) but the `COUNT(*)` table
probe fails, explain fails, and `PRAGMA table_info` fails. -/
def db1 : DB :=
  { exec := fun s => if s = "SELECT a FROM t" then .ok 1 else .error "no such table: t"
    explainQ := fun _ => .error "explain failed"
    tableInfo := fun _ => .error "no such table"
    overhead := 0 }

/-- A database on which every statement fails (e.g. the query references a
non-existent column). -/
def db2 : DB :=
  { exec := fun _ => .error "no such column: x"
    explainQ := fun _ => .error "no such column: x"
    tableInfo := fun _ => .error "no such table"
    overhead := 0 }

/-- A database where the full query runs in 1s, every other statement
fails, and the explain facility yields one plan row. -/
def db3 : DB :=
  { exec := fun s => if s = "SELECT x FROM t" then .ok 1 else .error "boom"
    explainQ := fun _ => .ok ["plan row"]
    tableInfo := fun _ => .ok []
    overhead := 0 }

/-- A database where every statement runs in 1s and the timed window costs
1s of loop overhead — making a zero-iteration window visibly non-zero. -/
def db4 : DB :=
  { exec := fun _ => .ok 1
    explainQ := fun _ => .ok []
    tableInfo := fun _ => .ok []
    overhead := 1 }

/-- A database whose schema has `customers` and `orders` sharing the
`customer_id` column. -/
def dbJ : DB :=
  { exec := fun _ => .ok 1
    explainQ := fun _ => .ok []
    tableInfo := fun t =>
      if t = "customers" then .ok ["customer_id", "name", "city"]
      else if t = "orders" then .ok ["order_id", "customer_id", "order_date", "total"]
      else .error "no such table"
    overhead := 0 }


/-- The report the GUI produces for `SELECT x FROM t` on `db3`: the table
scan probe fails (recorded as duration 0), the full query takes 1s, and the
unfiltered top-5 bottleneck list keeps the zero-duration entry. -/
def reportG : GuiReport :=
  { join_count := 0
    subquery_count := 0
    tables := ["t"]
    execution_time := 1
    timeline := [⟨"Full query execution", "query", 1⟩, ⟨"Table scan: t", "table_scan", 0⟩]
    bottlenecks := [⟨"Full query execution", "query", 1⟩, ⟨"Table scan: t", "table_scan", 0⟩]
    explain := [GRow.planRow "plan row"] }

/-! ### General lemmas -/

theorem pickHead_mem : ∀ xs : List String, xs ≠ [] → pickHead xs ∈ xs := by
  intro xs h
  cases xs with
  | nil => exact absurd rfl h
  | cons a t => simp [pickHead]

/-! ### Lemmas about the stable descending sort -/

theorem insertDescBy_perm {α : Type} (key : α → ℚ) (x : α) :
    ∀ l : List α, List.Perm (insertDescBy key x l) (x :: l)
  | [] => List.Perm.refl _
  | y :: ys => by
    simp only [insertDescBy]
    split
    · exact ((insertDescBy_perm key x ys).cons y).trans (List.Perm.swap x y ys)
    · exact List.Perm.refl _

theorem sortDescBy_perm {α : Type} (key : α → ℚ) :
    ∀ l : List α, List.Perm (sortDescBy key l) l
  | [] => List.Perm.refl _
  | x :: xs => by
    simp only [sortDescBy]
    exact (insertDescBy_perm key x (sortDescBy key xs)).trans
      ((sortDescBy_perm key xs).cons x)

theorem insertDescBy_pairwise {α : Type} (key : α → ℚ) (x : α) :
    ∀ l : List α, l.Pairwise (fun a b => key b ≤ key a) →
      (insertDescBy key x l).Pairwise (fun a b => key b ≤ key a)
  | [], _ => by simp [insertDescBy]
  | y :: ys, h => by
    rw [List.pairwise_cons] at h
    simp only [insertDescBy]
    split
    next hxy =>
      rw [List.pairwise_cons]
      refine ⟨?_, insertDescBy_pairwise key x ys h.2⟩
      intro b hb
      rcases List.mem_cons.mp ((insertDescBy_perm key x ys).mem_iff.mp hb) with rfl | hbys
      · exact le_of_lt hxy
      · exact h.1 b hbys
    next hxy =>
      rw [List.pairwise_cons]
      refine ⟨?_, List.pairwise_cons.mpr h⟩
      intro b hb
      rcases List.mem_cons.mp hb with rfl | hbys
      · exact le_of_not_lt hxy
      · exact (h.1 b hbys).trans (le_of_not_lt hxy)

theorem sortDescBy_pairwise {α : Type} (key : α → ℚ) :
    ∀ l : List α, (sortDescBy key l).Pairwise (fun a b => key b ≤ key a)
  | [] => by simp [sortDescBy]
  | x :: xs => by
    simp only [sortDescBy]
    exact insertDescBy_pairwise key x _ (sortDescBy_pairwise key xs)

/-- Stability of the insertion step: inserting an element moves it past
strictly greater keys only, so the sub-sequence of elements with any fixed
key value is preserved (with the new element first when its key matches,
since it is inserted before the equal keys that were inserted earlier —
matching its position at the head in `x :: l`). -/
theorem insertDescBy_filter_eq {α : Type} (key : α → ℚ) (x : α) (d : ℚ) :
    ∀ l : List α,
      (insertDescBy key x l).filter (fun s => decide (key s = d)) =
        if key x = d then x :: l.filter (fun s => decide (key s = d))
        else l.filter (fun s => decide (key s = d))
  | [] => by
    by_cases hxd : key x = d <;> simp [insertDescBy, hxd]
  | y :: ys => by
    simp only [insertDescBy]
    split
    next hxy =>
      have hrec := insertDescBy_filter_eq key x d ys
      by_cases hxd : key x = d
      · have hy : key y ≠ d := by
          intro hyd
          rw [hxd, hyd] at hxy
          exact lt_irrefl d hxy
        simp [List.filter_cons, hxd, hy, hrec]
      · simp [List.filter_cons, hxd, hrec]
    next hxy =>
      by_cases hxd : key x = d <;> simp [List.filter_cons, hxd]

/-- Stability of the sort: for every key value `d`, the elements whose key
equals `d` appear in the sorted output exactly in their input order. -/
theorem sortDescBy_filter_eq {α : Type} (key : α → ℚ) (d : ℚ) :
    ∀ l : List α,
      (sortDescBy key l).filter (fun s => decide (key s = d)) =
        l.filter (fun s => decide (key s = d))
  | [] => rfl
  | x :: xs => by
    simp only [sortDescBy]
    rw [insertDescBy_filter_eq key x d, sortDescBy_filter_eq key d xs]
    by_cases hxd : key x = d <;> simp [List.filter_cons, hxd]

/-- In a descending list, taking a prefix commutes with filtering for
positive keys: once a non-positive key is reached, nothing positive
follows. -/
theorem sorted_take_filter_pos {α : Type} (key : α → ℚ) :
    ∀ (l : List α) (n : Nat), l.Pairwise (fun a b => key b ≤ key a) →
      (l.take n).filter (fun s => decide (0 < key s)) =
        (l.filter (fun s => decide (0 < key s))).take n
  | [], n, _ => by simp
  | x :: xs, 0, _ => by simp
  | x :: xs, n + 1, h => by
    rw [List.pairwise_cons] at h
    by_cases hx : 0 < key x
    · simp [List.take_cons, List.filter_cons, hx,
        sorted_take_filter_pos key xs n h.2]
    · have hall : ∀ b ∈ xs, ¬ 0 < key b := fun b hb hpos =>
        hx (lt_of_lt_of_le hpos (h.1 b hb))
      have h1 : xs.filter (fun s => decide (0 < key s)) = [] :=
        List.filter_eq_nil_iff.mpr (by intro b hb; simpa using hall b hb)
      have h2 : (xs.take n).filter (fun s => decide (0 < key s)) = [] :=
        List.filter_eq_nil_iff.mpr
          (by intro b hb; simpa using hall b (List.mem_of_mem_take hb))
      simp [List.take_cons, List.filter_cons, hx, h1, h2]

/-- The bottleneck test is exactly positivity of the sort key. -/
theorem bottleneckPred_eq (s : Step) : bottleneckPred s = decide (0 < stepKey s) := by
  rcases s with ⟨n, ty, d, dt⟩
  rcases d with _ | d
  · simp [bottleneckPred, stepKey]
  · simp only [bottleneckPred, stepKey, Option.getD_some]
    by_cases hd : d = 0
    · simp [hd]
    · simp [hd]

/-- Every step the terminal analyzer puts into the timeline carries a
`some` duration: the `d or 0.0` coercions leave no null behind. -/
theorem timelinePre_duration_isSome (db : DB) (pick : List String → String)
    (sqlRaw : String) :
    ∀ s ∈ timelinePre db pick sqlRaw, ∃ d, s.duration_s = some d := by
  intro s hs
  simp only [timelinePre, explainStepsOf, scanStepsOf, joinStepsOf, subStepsOf,
    List.mem_append, List.mem_map, List.mem_singleton, or_assoc] at hs
  rcases hs with ⟨r, _, rfl⟩ | ⟨td, _, rfl⟩ | ⟨x, _, rfl⟩ | ⟨x, _, rfl⟩ | rfl
  · exact ⟨0, rfl⟩
  · exact ⟨td.2.getD 0, rfl⟩
  · exact ⟨x.2.2.getD 0, rfl⟩
  · exact ⟨x.2.2.getD 0, rfl⟩
  · exact ⟨(fullDurOf db sqlRaw).getD 0, rfl⟩


example : join_common_cols dbJ "customers" "orders" = ["customer_id"] := by decide

unseal Rat.add Rat.mul Rat.inv in
example :
    (analyze_query db1 pickHead "SELECT a FROM t").table_costs = [("t", none)] := by
  decide

unseal Rat.add Rat.mul Rat.inv in
example :
    (analyze_query db1 pickHead "SELECT a FROM t").timeline.map Step.duration_s =
      [some 1, some 0] := by
  decide

/-! ### Lemmas about subquery-fragment extraction -/

/-- A balanced fragment is non-empty and ends with the closing parenthesis
the depth counter stopped at. -/
theorem takeBalanced_getLast :
    ∀ (l : List Char) (d : Int) (f : List Char),
      takeBalanced l d = some f → f ≠ [] ∧ f.getLast? = some ')'
  | [], d, f => by simp [takeBalanced]
  | c :: rest, d, f => by
    simp only [takeBalanced]
    split
    next hc =>
      intro h
      obtain ⟨f', hf', rfl⟩ := Option.map_eq_some'.mp h
      obtain ⟨hne, hlast⟩ := takeBalanced_getLast rest (d + 1) f' hf'
      obtain ⟨b, l', rfl⟩ := List.exists_cons_of_ne_nil hne
      exact ⟨by simp, by rw [List.getLast?_cons_cons]; exact hlast⟩
    next hc =>
      split
      next hc2 =>
        split
        · intro h
          obtain rfl : [c] = f := by simpa using h
          subst hc2
          exact ⟨by simp, rfl⟩
        · intro h
          obtain ⟨f', hf', rfl⟩ := Option.map_eq_some'.mp h
          obtain ⟨hne, hlast⟩ := takeBalanced_getLast rest (d - 1) f' hf'
          obtain ⟨b, l', rfl⟩ := List.exists_cons_of_ne_nil hne
          exact ⟨by simp, by rw [List.getLast?_cons_cons]; exact hlast⟩
      next hc2 =>
        intro h
        obtain ⟨f', hf', rfl⟩ := Option.map_eq_some'.mp h
        obtain ⟨hne, hlast⟩ := takeBalanced_getLast rest d f' hf'
        obtain ⟨b, l', rfl⟩ := List.exists_cons_of_ne_nil hne
        exact ⟨by simp, by rw [List.getLast?_cons_cons]; exact hlast⟩

/-- A balanced fragment starts with the character the scan started at. -/
theorem takeBalanced_head (c : Char) (rest : List Char) (d : Int) (f : List Char)
    (h : takeBalanced (c :: rest) d = some f) : f.head? = some c := by
  simp only [takeBalanced] at h
  split at h
  · obtain ⟨f', _, rfl⟩ := Option.map_eq_some'.mp h
    rfl
  · split at h
    · split at h
      · obtain rfl : [c] = f := by simpa using h
        rfl
      · obtain ⟨f', _, rfl⟩ := Option.map_eq_some'.mp h
        rfl
    · obtain ⟨f', _, rfl⟩ := Option.map_eq_some'.mp h
      rfl

/-- Membership in the extraction result comes from a `(\s*SELECT` position
and a successful balanced scan there. -/
theorem extract_subqueries_mem (s frag : List Char)
    (h : frag ∈ extract_subqueries s) :
    ∃ p, isSubqStart (s.drop p) = true ∧ takeBalanced (s.drop p) 0 = some frag := by
  simp only [extract_subqueries, List.mem_filterMap, List.mem_range] at h
  obtain ⟨p, _, hfm⟩ := h
  by_cases hs : isSubqStart (s.drop p) = true
  · rw [if_pos hs] at hfm
    exact ⟨p, hs, hfm⟩
  · rw [if_neg hs] at hfm
    cases hfm

/-- A matched subquery start begins with an opening parenthesis. -/
theorem isSubqStart_shape (l : List Char) (h : isSubqStart l = true) :
    ∃ rest, l = '(' :: rest := by
  cases l with
  | nil => simp [isSubqStart] at h
  | cons c rest =>
    simp only [isSubqStart, Bool.and_eq_true, decide_eq_true_eq] at h
    exact ⟨rest, by rw [h.1]⟩

/-- `str.strip()` leaves a parenthesised fragment unchanged: neither end is
whitespace. -/
theorem pyStrip_paren (frag : List Char) (hh : frag.head? = some '(')
    (hl : frag.getLast? = some ')') : pyStrip frag = frag := by
  have h1 : frag.dropWhile pyIsSpace = frag := by
    cases frag with
    | nil => rfl
    | cons c t =>
      obtain rfl : c = '(' := by simpa using hh
      simp [List.dropWhile_cons, pyIsSpace]
  have h2 : frag.reverse.dropWhile pyIsSpace = frag.reverse := by
    cases hrev : frag.reverse with
    | nil => rfl
    | cons c t =>
      have hc : frag.getLast? = some c := by
        rw [← List.head?_reverse, hrev]
        rfl
      rw [hl] at hc
      obtain rfl : c = ')' := by simpa using hc.symm
      simp [List.dropWhile_cons, pyIsSpace]
  unfold pyStrip
  rw [h1, h2, List.reverse_reverse]

/-! ### Claim theorems -/

/-- Claim C9 (confirmed): every fragment returned by subquery extraction is
non-empty, begins with `(` and ends with `)`; hence the parenthesis
stripping applied before timing never indexes an empty string (the
`strip()` is the identity on the fragment) and removes exactly the outer
parenthesis pair (the first and last character). -/
theorem c9_fragment_parens (s frag : List Char)
    (h : frag ∈ extract_subqueries s) :
    frag ≠ [] ∧ frag.head? = some '(' ∧ frag.getLast? = some ')' ∧
      pyStrip frag = frag ∧ stripOuterParens frag = (frag.drop 1).dropLast := by
  obtain ⟨p, hs, htb⟩ := extract_subqueries_mem s frag h
  obtain ⟨rest, hrest⟩ := isSubqStart_shape _ hs
  obtain ⟨hne, hlast⟩ := takeBalanced_getLast _ _ _ htb
  rw [hrest] at htb
  have hhead : frag.head? = some '(' := takeBalanced_head _ _ _ _ htb
  have hstrip : pyStrip frag = frag := pyStrip_paren frag hhead hlast
  refine ⟨hne, hhead, hlast, hstrip, ?_⟩
  unfold stripOuterParens
  simp [hstrip, hhead, hlast]

/-- Witness for C9 at a concrete query: the single fragment of
`(SELECT 1 FROM t)` satisfies every conjunct. -/
theorem c9_fragment_parens_witness :
    "(SELECT 1 FROM t)".toList ≠ [] ∧
      "(SELECT 1 FROM t)".toList.head? = some '(' ∧
      "(SELECT 1 FROM t)".toList.getLast? = some ')' ∧
      pyStrip "(SELECT 1 FROM t)".toList = "(SELECT 1 FROM t)".toList ∧
      stripOuterParens "(SELECT 1 FROM t)".toList =
        ("(SELECT 1 FROM t)".toList.drop 1).dropLast :=
  c9_fragment_parens "(SELECT 1 FROM t)".toList "(SELECT 1 FROM t)".toList (by decide)

/-- Claim C4 (counterexample): on `(SELECT x FROM (SELECT y FROM t))`,
subquery extraction does NOT emit exactly one fragment — `finditer` also
matches the inner `(SELECT`, so the inner subquery is separately emitted
and two fragments come back. -/
theorem c4_counterexample :
    (extract_subqueries "(SELECT x FROM (SELECT y FROM t))".toList).length ≠ 1 := by
  decide

/-- Claim C4 (amended): extraction emits one fragment per `(\s*SELECT`
occurrence, including nested ones; for the query
`(SELECT x FROM (SELECT y FROM t))` it emits exactly two fragments: the
full outer parenthesised expression and then the inner subquery. -/
theorem c4_amended :
    extract_subqueries "(SELECT x FROM (SELECT y FROM t))".toList =
      ["(SELECT x FROM (SELECT y FROM t))".toList,
       "(SELECT y FROM t)".toList] := by
  decide

/-- Claim C7 (amended): for a positive iteration count, time_query returns
the elapsed window (overhead plus `iterations` executions) divided by
`iterations` on success — the divisor `max(1, iterations)` equals
`iterations` there — and a null duration paired with the error text if
execution fails; the claim's division by the raw iteration count is wrong
only for `iterations ≤ 0`, where the code divides by 1 instead. -/
theorem c7_amended (db : DB) (sql : String) (w : Bool) (n : Int) :
    (∀ t : ℚ, 1 ≤ n → db.exec sql = .ok t →
      time_query db sql w n =
        (some ((db.overhead + (n.toNat : ℚ) * t) / ((n : ℤ) : ℚ)), none)) ∧
    (∀ e : String, 1 ≤ n → db.exec sql = .error e →
      time_query db sql w n = (none, some e)) := by
  have hnz : 1 ≤ n → ¬n.toNat = 0 := by
    intro hn h0
    rw [Int.toNat_eq_zero] at h0
    omega
  have hdiv : 1 ≤ n → iterDivisor n = ((n : ℤ) : ℚ) := by
    intro hn
    unfold iterDivisor
    rw [max_eq_right hn]
  constructor
  · intro t hn hexec
    unfold time_query
    rw [if_neg (hnz hn), hexec, hdiv hn]
  · intro e hn hexec
    unfold time_query
    rw [if_neg (hnz hn), hexec]

unseal Rat.add Rat.mul Rat.inv in
/-- Witness for C7 at two iterations of a 1-second statement on a database
with 1s window overhead. -/
theorem c7_amended_witness :
    time_query db4 "SELECT 1" true 2 =
      (some ((db4.overhead + (((2 : Int).toNat : ℚ)) * 1) / (((2 : Int) : ℤ) : ℚ)),
        none) :=
  (c7_amended db4 "SELECT 1" true 2).1 1 (by decide) rfl

unseal Rat.add Rat.mul Rat.inv in
/-- Claim C7 (counterexample): with `iterations = 0` on a database whose
timed window costs 1s of overhead, the code returns that 1s window divided
by `max(1, 0) = 1`, which is not the claimed "total elapsed time divided by
`iterations`" (division by the raw count 0 — which denotes 0 in ℚ and
raises in Python). -/
theorem c7_counterexample :
    (time_query db4 "SELECT 1" true 0).1 = some (db4.overhead / ((1 : ℤ) : ℚ)) ∧
    (time_query db4 "SELECT 1" true 0).1 ≠
      some ((db4.overhead + (((0 : Int).toNat : ℚ)) * 1) / ((0 : ℤ) : ℚ)) := by
  constructor
  · decide
  · decide

/-- Claim C10 (confirmed): time_query never divides by zero — the divisor
is `max(1, iterations)`, which is always positive; with a non-positive
iteration count the timed loop executes no statements and the returned
duration is the (near-zero, overhead-only) elapsed window divided by 1. -/
theorem c10_no_div_by_zero (db : DB) (sql : String) (w : Bool) (n : Int) :
    (0 : ℤ) < max 1 n ∧
      (n ≤ 0 →
        n.toNat = 0 ∧
        time_query db sql w n = (some (db.overhead / iterDivisor n), none) ∧
        iterDivisor n = 1) := by
  constructor
  · have := le_max_left (1 : ℤ) n
    omega
  · intro hn
    have h0 : n.toNat = 0 := Int.toNat_eq_zero.mpr hn
    refine ⟨h0, ?_, ?_⟩
    · unfold time_query
      rw [if_pos h0]
    · unfold iterDivisor
      rw [max_eq_left (by omega : n ≤ (1 : ℤ))]
      simp

unseal Rat.add Rat.mul Rat.inv in
/-- Witness for C10 at `iterations = 0`. -/
theorem c10_no_div_by_zero_witness :
    (0 : ℤ) < max 1 (0 : Int) ∧
      ((0 : Int).toNat = 0 ∧
        time_query db4 "SELECT 1" true 0 =
          (some (db4.overhead / iterDivisor 0), none) ∧
        iterDivisor (0 : Int) = 1) :=
  ⟨(c10_no_div_by_zero db4 "SELECT 1" true 0).1,
   (c10_no_div_by_zero db4 "SELECT 1" true 0).2 (by decide)⟩

/-- Claim C5 (amended): with no explicit condition, the terminal
`estimate_join_cost` builds the conditioned probe
`SELECT COUNT(*) FROM left JOIN right ON left.c = right.c` with `c` a
member of the column-name intersection chosen by the runtime's set
iteration (deterministic given that choice function, which CPython does not
guarantee to be reproducible across processes), and falls back to the cross
probe `... LIMIT 1000` when the intersection is empty; the GUI's
`join_cost` instead always times the cross probe with `LIMIT 2000`. -/
theorem c5_amended (db : DB) (pick : List String → String)
    (hp : ∀ xs : List String, xs ≠ [] → pick xs ∈ xs) (l r : String) :
    (join_common_cols db l r ≠ [] →
      pick (join_common_cols db l r) ∈ join_common_cols db l r ∧
      estimate_join_cost_sql db pick l r none =
        "SELECT COUNT(*) FROM " ++ l ++ " JOIN " ++ r ++ " ON " ++
          (l ++ "." ++ pick (join_common_cols db l r) ++ " = " ++ r ++ "." ++
            pick (join_common_cols db l r))) ∧
    (join_common_cols db l r = [] →
      estimate_join_cost_sql db pick l r none =
        "SELECT COUNT(*) FROM " ++ l ++ ", " ++ r ++ " LIMIT 1000") ∧
    estimate_join_cost db pick l r none =
      (time_query db (estimate_join_cost_sql db pick l r none) true 1).1 ∧
    join_cost_sql l r = "SELECT COUNT(*) FROM " ++ l ++ ", " ++ r ++ " LIMIT 2000" := by
  refine ⟨?_, ?_, rfl, rfl⟩
  · intro hne
    refine ⟨hp _ hne, ?_⟩
    unfold estimate_join_cost_sql
    simp only [if_neg hne]
  · intro he
    unfold estimate_join_cost_sql
    simp only [if_pos he]

/-- Witness for C5 on a schema where customers and orders share the
customer_id column: the conditioned join probe is built from a member of
the intersection. -/
theorem c5_amended_witness :
    pickHead (join_common_cols dbJ "customers" "orders") ∈
      join_common_cols dbJ "customers" "orders" ∧
    estimate_join_cost_sql dbJ pickHead "customers" "orders" none =
      "SELECT COUNT(*) FROM " ++ "customers" ++ " JOIN " ++ "orders" ++ " ON " ++
        ("customers" ++ "." ++ pickHead (join_common_cols dbJ "customers" "orders") ++
          " = " ++ "orders" ++ "." ++ pickHead (join_common_cols dbJ "customers" "orders")) :=
  (c5_amended dbJ pickHead pickHead_mem "customers" "orders").1 (by decide)

/-- Claim C5 (counterexample): the customers and orders tables share the
customer_id column, yet the GUI's join_cost probes them with the cross
statement and LIMIT 2000 — not the claimed conditioned join, and not the
claimed LIMIT 1000 bound. -/
theorem c5_counterexample :
    join_common_cols dbJ "customers" "orders" = ["customer_id"] ∧
    join_cost_sql "customers" "orders" =
      "SELECT COUNT(*) FROM customers, orders LIMIT 2000" ∧
    join_cost_sql "customers" "orders" ≠
      "SELECT COUNT(*) FROM customers JOIN orders ON customers.customer_id = orders.customer_id" := by
  refine ⟨by decide, rfl, by decide⟩

/-- Claim C8 (amended): when the explain facility fails, the terminal
explain_query_plan returns the empty row sequence and the analysis
proceeds — the report's explain list is empty, no explain steps enter the
timeline, and the timeline is built from the remaining probes as usual;
the GUI's explain_query however returns a single ("EXPLAIN FAILED", error)
row rather than an empty sequence (the analysis there proceeds too). -/
theorem c8_amended (db : DB) (pick : List String → String) (sqlRaw : String)
    (e1 e2 : String)
    (h1 : db.explainQ ("EXPLAIN QUERY PLAN " ++ analyzedSqlStr sqlRaw) = .error e1)
    (h2 : db.explainQ ("EXPLAIN QUERY PLAN " ++ String.mk (pyStrip sqlRaw.toList)) =
      .error e2) :
    (analyze_query db pick sqlRaw).explain = [] ∧
    explainStepsOf db sqlRaw = [] ∧
    (analyze_query db pick sqlRaw).timeline =
      sortDescBy stepKey (scanStepsOf db sqlRaw ++ joinStepsOf db pick sqlRaw ++
        subStepsOf db sqlRaw ++ [fullStepOf db sqlRaw]) ∧
    explain_query db (String.mk (pyStrip sqlRaw.toList)) = [GRow.failed e2] := by
  have hrows : explainRowsOf db sqlRaw = [] := by
    unfold explainRowsOf explain_query_plan
    rw [h1]
  have hsteps : explainStepsOf db sqlRaw = [] := by
    unfold explainStepsOf
    rw [hrows]
    rfl
  refine ⟨hrows, hsteps, ?_, ?_⟩
  · show timelineSorted db pick sqlRaw = _
    unfold timelineSorted timelinePre
    rw [hsteps, List.nil_append]
  · unfold explain_query
    rw [h2]

/-- Witness for C8 on a database whose explain facility fails. -/
theorem c8_amended_witness :
    (analyze_query db2 pickHead "SELECT x FROM t").explain = [] ∧
    explainStepsOf db2 "SELECT x FROM t" = [] ∧
    (analyze_query db2 pickHead "SELECT x FROM t").timeline =
      sortDescBy stepKey (scanStepsOf db2 "SELECT x FROM t" ++
        joinStepsOf db2 pickHead "SELECT x FROM t" ++
        subStepsOf db2 "SELECT x FROM t" ++ [fullStepOf db2 "SELECT x FROM t"]) ∧
    explain_query db2 (String.mk (pyStrip "SELECT x FROM t".toList)) =
      [GRow.failed "no such column: x"] :=
  c8_amended db2 pickHead "SELECT x FROM t" _ _ rfl rfl

/-- Claim C8 (counterexample): on an explain failure the GUI's explain
facility does not return an empty sequence — it returns the synthetic
single-row marker. -/
theorem c8_counterexample :
    explain_query db2 "SELECT 1" = [GRow.failed "no such column: x"] ∧
    explain_query db2 "SELECT 1" ≠ [] := by
  exact ⟨rfl, by decide⟩

/-- Claim C1 (amended): when the full query itself fails to execute, the
GUI's analyze_sql aborts the analysis and surfaces the database error
message, producing no report; the terminal analyze_query does NOT abort —
it records a null full-query duration in the report and continues with the
other probes. -/
theorem c1_amended (db : DB) (pick : List String → String) (sqlRaw : String)
    (e1 e2 : String)
    (hne : pyStrip sqlRaw.toList ≠ [])
    (h1 : db.exec (String.mk (pyStrip sqlRaw.toList)) = .error e1)
    (h2 : db.exec (analyzedSqlStr sqlRaw) = .error e2) :
    analyze_sql db sqlRaw = .error e1 ∧
    (analyze_query db pick sqlRaw).full_query_duration_s = none := by
  constructor
  · unfold analyze_sql
    rw [if_neg hne]
    simp only [gui_time_query, h1]
  · show fullDurOf db sqlRaw = none
    unfold fullDurOf time_query
    rw [if_neg (by decide : ¬(1 : Int).toNat = 0), h2]

/-- Witness for C1 on a database where every statement fails. -/
theorem c1_amended_witness :
    analyze_sql db2 "SELECT x FROM t" = .error "no such column: x" ∧
    (analyze_query db2 pickHead "SELECT x FROM t").full_query_duration_s = none :=
  c1_amended db2 pickHead "SELECT x FROM t" _ _ (by decide) rfl rfl

unseal Rat.add Rat.mul Rat.inv in
/-- Claim C1 (counterexample): on a failing full query the terminal
analyze_query still produces a report — with a null full-query duration, a
populated two-step timeline and the per-table cost map — instead of
aborting with no Report as claimed. -/
theorem c1_counterexample :
    (analyze_query db2 pickHead "SELECT x FROM t").full_query_duration_s = none ∧
    (analyze_query db2 pickHead "SELECT x FROM t").timeline.length = 2 ∧
    (analyze_query db2 pickHead "SELECT x FROM t").table_costs = [("t", none)] := by
  refine ⟨by decide, by decide, by decide⟩

/-- Claim C2 (amended): a probe whose duration is null is coerced to 0.0
when its step is inserted into the timeline (`d or 0.0`), so every timeline
step presented in the report carries a non-null duration; the raw cost maps
do preserve null (table_costs stores the probe output unchanged); and the
sort key maps a null duration to 0.0 — vacuously for the timeline, whose
entries are never null. -/
theorem c2_amended (db : DB) (pick : List String → String) (sqlRaw : String)
    (s : Step) (hs : s ∈ (analyze_query db pick sqlRaw).timeline) :
    (∃ d, s.duration_s = some d) ∧
    (analyze_query db pick sqlRaw).table_costs =
      (tablesOf sqlRaw).map
        (fun t => (t, (time_query db ("SELECT COUNT(*) FROM " ++ t) true 1).1)) ∧
    stepKey ⟨"probe", "table_scan", none, "detail"⟩ = 0 := by
  refine ⟨?_, rfl, rfl⟩
  have hmem : s ∈ timelinePre db pick sqlRaw :=
    ((sortDescBy_perm stepKey (timelinePre db pick sqlRaw)).mem_iff).mp hs
  exact timelinePre_duration_isSome db pick sqlRaw s hmem

unseal Rat.add Rat.mul Rat.inv in
/-- Witness for C2: the timeline step of the failed table probe of db1. -/
theorem c2_amended_witness :
    (∃ d, (Step.mk "Table scan: t" "table_scan" (some 0) "COUNT(*) estimate").duration_s
        = some d) ∧
    (analyze_query db1 pickHead "SELECT a FROM t").table_costs =
      (tablesOf "SELECT a FROM t").map
        (fun t => (t, (time_query db1 ("SELECT COUNT(*) FROM " ++ t) true 1).1)) ∧
    stepKey ⟨"probe", "table_scan", none, "detail"⟩ = 0 :=
  c2_amended db1 pickHead "SELECT a FROM t" _ (by decide)

unseal Rat.add Rat.mul Rat.inv in
/-- Claim C2 (counterexample): on db1 the table probe for t fails (null in
the raw cost map), yet the timeline presents that step with duration 0.0,
not null — no timeline entry is null at all. -/
theorem c2_counterexample :
    (analyze_query db1 pickHead "SELECT a FROM t").table_costs = [("t", none)] ∧
    (analyze_query db1 pickHead "SELECT a FROM t").timeline.map Step.duration_s =
      [some 1, some 0] ∧
    (∀ s ∈ (analyze_query db1 pickHead "SELECT a FROM t").timeline,
      s.duration_s ≠ none) := by
  refine ⟨by decide, by decide, by decide⟩

/-- Claim C3 (amended): the terminal analyzer's bottleneck selection
returns at most 5 entries, every returned entry has a non-null duration
strictly greater than 0, and exactly min(5, number of positive-duration
steps) entries are returned (fewer than 5 when the timeline has fewer
positive steps); the GUI's bottleneck selection however is just the first
five entries of the sorted timeline, with no positivity filter. -/
theorem c3_amended (db : DB) (pick : List String → String) (sqlRaw : String) :
    (analyze_query db pick sqlRaw).bottlenecks.length ≤ 5 ∧
    (∀ s ∈ (analyze_query db pick sqlRaw).bottlenecks,
      ∃ d, s.duration_s = some d ∧ 0 < d) ∧
    (analyze_query db pick sqlRaw).bottlenecks.length =
      min 5 ((timelinePre db pick sqlRaw).filter bottleneckPred).length ∧
    (∀ (dbG : DB) (sG : String) (r : GuiReport),
      analyze_sql dbG sG = .ok r → r.bottlenecks = r.timeline.take 5) := by
  have hfe : ∀ l : List Step,
      l.filter bottleneckPred = l.filter (fun s => decide (0 < stepKey s)) := by
    intro l
    apply List.filter_congr
    intro s _
    rw [bottleneckPred_eq]
  refine ⟨?_, ?_, ?_, ?_⟩
  · show (bottlenecksOf db pick sqlRaw).length ≤ 5
    unfold bottlenecksOf
    exact le_trans (List.length_filter_le _ _) (List.length_take_le 5 _)
  · intro s hs
    have hs' : s ∈ ((timelineSorted db pick sqlRaw).take 5).filter bottleneckPred := hs
    rw [List.mem_filter] at hs'
    have hpred := hs'.2
    rw [bottleneckPred_eq] at hpred
    have h0 : 0 < stepKey s := of_decide_eq_true hpred
    cases hd : s.duration_s with
    | none => simp [stepKey, hd] at h0
    | some d => exact ⟨d, rfl, by simpa [stepKey, hd] using h0⟩
  · show (bottlenecksOf db pick sqlRaw).length = _
    unfold bottlenecksOf
    rw [hfe]
    rw [sorted_take_filter_pos stepKey (timelineSorted db pick sqlRaw) 5
      (sortDescBy_pairwise stepKey (timelinePre db pick sqlRaw))]
    rw [List.length_take]
    congr 1
    unfold timelineSorted
    rw [((sortDescBy_perm stepKey (timelinePre db pick sqlRaw)).filter
      (fun s => decide (0 < stepKey s))).length_eq, ← hfe]
  · intro dbG sG r h
    simp only [analyze_sql] at h
    split at h
    · exact Except.noConfusion h
    · split at h
      · exact Except.noConfusion h
      · injection h with h'
        subst h'
        rfl

unseal Rat.add Rat.mul Rat.inv in
/-- Witness for C3: the terminal bound and positivity on db1 (where the
single bottleneck is the 1-second full query), and the GUI take-5 equation
on the concrete report of db3. -/
theorem c3_amended_witness :
    (analyze_query db1 pickHead "SELECT a FROM t").bottlenecks.length ≤ 5 ∧
    (∃ d, (Step.mk "Full query execution" "query" (some 1)
        "SELECT a FROM t").duration_s = some d ∧ 0 < d) ∧
    reportG.bottlenecks = reportG.timeline.take 5 :=
  ⟨(c3_amended db1 pickHead "SELECT a FROM t").1,
   (c3_amended db1 pickHead "SELECT a FROM t").2.1 _ (by decide),
   (c3_amended db1 pickHead "SELECT a FROM t").2.2.2 db3 "SELECT x FROM t" reportG
     rfl⟩

unseal Rat.add Rat.mul Rat.inv in
/-- Claim C3 (counterexample): on db3 the GUI report's bottleneck list is
the unfiltered top five of the sorted timeline and contains the failed
table-scan step with duration 0 — refuting "every returned entry has a
non-null duration strictly greater than 0" for the GUI's selection. -/
theorem c3_counterexample :
    analyze_sql db3 "SELECT x FROM t" = .ok reportG ∧
    reportG.bottlenecks.map GStep.duration = [1, 0] := by
  refine ⟨rfl, by decide⟩

/-- Claim C6 (confirmed): steps enter the timeline in the fixed insertion
order — explain annotation steps, one table-scan step per extracted table,
one join step per i<j pair of the table sequence, one subquery step per
fragment in discovery order, and the full-query step last — and the sort by
duration descending is stable: the timeline of the report is the stable
descending sort of that insertion-ordered list (equal durations keep their
insertion order: for every duration value, filtering the sorted timeline
yields exactly the insertion-ordered sublist). -/
theorem c6_timeline_order_and_stable_sort (db : DB)
    (pick : List String → String) (sqlRaw : String) :
    timelinePre db pick sqlRaw =
      explainStepsOf db sqlRaw ++ scanStepsOf db sqlRaw ++
        joinStepsOf db pick sqlRaw ++ subStepsOf db sqlRaw ++
        [fullStepOf db sqlRaw] ∧
    scanStepsOf db sqlRaw = (tableCostsOf db sqlRaw).map (fun td =>
      ⟨"Table scan: " ++ td.1, "table_scan", some (td.2.getD 0),
        "COUNT(*) estimate"⟩) ∧
    joinStepsOf db pick sqlRaw = (pairsOf (tablesOf sqlRaw)).map (fun p =>
      ⟨"Join " ++ p.1 ++ joinGlyph ++ p.2, "join",
        some ((estimate_join_cost db pick p.1 p.2 none).getD 0),
        "pairwise join COUNT(*)"⟩) ∧
    (analyze_query db pick sqlRaw).timeline =
      sortDescBy stepKey (timelinePre db pick sqlRaw) ∧
    List.Pairwise (fun a b => stepKey b ≤ stepKey a)
      ((analyze_query db pick sqlRaw).timeline) ∧
    (∀ d : ℚ,
      (analyze_query db pick sqlRaw).timeline.filter
          (fun s => decide (stepKey s = d)) =
        (timelinePre db pick sqlRaw).filter (fun s => decide (stepKey s = d))) := by
  refine ⟨rfl, rfl, ?_, rfl, ?_, ?_⟩
  · unfold joinStepsOf joinResultsOf
    rw [List.map_map]
    rfl
  · exact sortDescBy_pairwise stepKey (timelinePre db pick sqlRaw)
  · intro d
    exact sortDescBy_filter_eq stepKey d (timelinePre db pick sqlRaw)
